import Mathlib

/-!
Verification of the budgy transaction-store layer
(`src/budgy/core/database.py`, class `BudgyDatabase`) against its
natural-language specification.

The Python class is embedded shallowly:

* a `DB` value models the two tables relevant to the ledger claims --
  `transactions` and `categories` -- of one open store, together with the
  `AUTOINCREMENT` counter that assigns the surrogate key `fitid`;
* each Python method needed by a claim becomes a Lean function of the same
  name acting on `DB`; rows come back from SQLite in table order, so the
  tables are ordered lists of rows;
* SQLite `FLOAT` amounts are modelled as exact rationals;
* SQLite `NULL` in the `category` column is modelled as `Option Nat`, and
  SQL equality against a possibly-NULL operand (`category = ?` with a NULL
  parameter matches no row) as `sql_eq_opt`;
* methods that raise are modelled with `Except DbError`.

A second, purely structural model (`SchemaDB`, further down) embeds
`_open_database` and the three migration methods, which read and rewrite
table/column/index metadata and copy all rows; for the migration claims
only the transaction row count matters, so rows are abstracted to a count
there.
-/

namespace Budgy

/-- A normalized input record as handed to the ledger by the importer:
the fields `account, type, posted, amount, name, memo, checknum`.
`checknum` may arrive absent (`None` in Python), hence `Option String`. -/
structure Record where
  account : String
  type : String
  posted : String
  amount : ℚ
  name : String
  memo : String
  checknum : Option String
deriving DecidableEq

/-- One stored row of the `transactions` table, in column order
`fitid, account, type, posted, amount, name, memo, category, checknum`.
`category INT DEFAULT 1` is nullable, hence `Option Nat`. -/
structure TxnRow where
  fitid : Nat
  account : String
  type : String
  posted : String
  amount : ℚ
  name : String
  memo : String
  category : Option Nat
  checknum : String
deriving DecidableEq

/-- One stored row of the `categories` table:
`id, name, subcategory, expense_type`. -/
structure CategoryRow where
  id : Nat
  name : String
  subcategory : String
  expense_type : Nat
deriving DecidableEq

/-- The ledger-level state of one open store: the `transactions` and
`categories` tables in table order, plus the next `AUTOINCREMENT` value
for `fitid`. -/
structure DB where
  txns : List TxnRow
  cats : List CategoryRow
  next_fitid : Nat
deriving DecidableEq

def DEFAULT_CATEGORY : String := "No Category"

def EMPTY_SUBCATEGORY : String := ""

/-- The row built by `insert_record` for record `r`: the seven supplied
columns, `fitid` from the autoincrement counter, and the column default
`category = 1`; `checknum` is normalized from `None` to the empty string
(`checknum = "" if record.get('checknum') is None else record['checknum']`). -/
def new_row (db : DB) (r : Record) : TxnRow :=
  { fitid := db.next_fitid
    account := r.account
    type := r.type
    posted := r.posted
    amount := r.amount
    name := r.name
    memo := r.memo
    category := some 1
    checknum := r.checknum.getD "" }

/-- `insert_record`: `INSERT INTO transactions (account, type, posted,
amount, name, memo, checknum) VALUES (...)` followed by a commit. -/
def insert_record (db : DB) (r : Record) : DB :=
  { db with
    txns := db.txns ++ [new_row db r]
    next_fitid := db.next_fitid + 1 }

/-- The `WHERE` clause of `find_duplicate_by_content`: equality on the
six content columns `account, posted, amount, name, memo, type`;
`fitid` and `checknum` do not appear in the comparison. -/
def matches_content (t : TxnRow) (r : Record) : Bool :=
  t.account == r.account && t.posted == r.posted && t.amount == r.amount &&
    t.name == r.name && t.memo == r.memo && t.type == r.type

/-- `find_duplicate_by_content`: `SELECT * FROM transactions WHERE` the six
content columns match; the Python returns `rows[0] if len(rows) > 0 else
None`, i.e. the first matching row in table order. -/
def find_duplicate_by_content (db : DB) (r : Record) : Option TxnRow :=
  db.txns.find? (fun t => matches_content t r)

/-- `merge_record`: if `find_duplicate_by_content` finds a row the new
record is discarded (logged as a skipped duplicate referencing the
existing row's fitid); otherwise `insert_record` runs. -/
def merge_record (db : DB) (r : Record) : DB :=
  match find_duplicate_by_content db r with
  | some _ => db
  | none => insert_record db r

/-- `count_records`: `SELECT COUNT(*) FROM transactions`. -/
def count_records (db : DB) : Nat :=
  db.txns.length

/-- Number of stored rows matching record `r` on the dedup six-tuple
(used to state the claims; it is the row count of the
`find_duplicate_by_content` query). -/
def count_matching (db : DB) (r : Record) : Nat :=
  (db.txns.filter (fun t => matches_content t r)).length

theorem matches_new_row (db : DB) (r : Record) :
    matches_content (new_row db r) r = true := by
  simp [matches_content, new_row]

theorem find_dup_insert (db : DB) (r : Record)
    (h : find_duplicate_by_content db r = none) :
    find_duplicate_by_content (insert_record db r) r = some (new_row db r) := by
  unfold find_duplicate_by_content at h ⊢
  simp [insert_record, List.find?_append, h, matches_new_row]

theorem count_matching_insert (db : DB) (r : Record)
    (h : find_duplicate_by_content db r = none) :
    count_matching (insert_record db r) r = 1 := by
  unfold find_duplicate_by_content at h
  have hnil : db.txns.filter (fun t => matches_content t r) = [] := by
    rw [List.filter_eq_nil_iff]
    intro a ha
    exact List.find?_eq_none.mp h a ha
  unfold count_matching
  simp [insert_record, List.filter_append, hnil, matches_new_row]

/-- Claim C1 (amended): the second merge of the same record is always a
no-op on the store; and when the store holds no row matching `R` on the
dedup six-tuple, `merge(R); merge(R)` leaves exactly one matching row and
raises the record count by exactly 1 (not 2). -/
theorem merge_record_idem (db : DB) (r : Record) :
    merge_record (merge_record db r) r = merge_record db r ∧
    (find_duplicate_by_content db r = none →
      count_matching (merge_record (merge_record db r) r) r = 1 ∧
      count_records (merge_record (merge_record db r) r) =
        count_records db + 1) := by
  cases hfd : find_duplicate_by_content db r with
  | some t =>
    constructor
    · simp [merge_record, hfd]
    · intro hnone
      simp [hfd] at hnone
  | none =>
    have h1 : merge_record db r = insert_record db r := by
      simp [merge_record, hfd]
    have h2 : merge_record (merge_record db r) r = insert_record db r := by
      rw [h1]
      simp [merge_record, find_dup_insert db r hfd]
    refine ⟨by rw [h2, h1], fun _ => ⟨?_, ?_⟩⟩
    · rw [h2]
      exact count_matching_insert db r hfd
    · rw [h2]
      simp [insert_record, count_records]

/-- Witness for `merge_record_idem` at a concrete record and the empty
store. -/
theorem merge_record_idem_wit :
    (let db : DB := ⟨[], [], 1⟩
     let r : Record :=
       ⟨"acct9", "DEBIT", "2024-01-02 00:00:00+00:00", -5, "PAYEE", "m", some "17"⟩
     merge_record (merge_record db r) r = merge_record db r ∧
    (find_duplicate_by_content db r = none →
      count_matching (merge_record (merge_record db r) r) r = 1 ∧
      count_records (merge_record (merge_record db r) r) =
        count_records db + 1)) :=
  merge_record_idem ⟨[], [], 1⟩
    ⟨"acct9", "DEBIT", "2024-01-02 00:00:00+00:00", -5, "PAYEE", "m", some "17"⟩

/-- A record already present (on the six-tuple) in the store below. -/
def r_c1 : Record :=
  ⟨"acct1", "DEBIT", "2024-02-03 00:00:00+00:00", -25, "SHOP", "", some ""⟩

/-- A store that already holds a row matching `r_c1` on the six-tuple. -/
def db_c1 : DB :=
  ⟨[⟨1, "acct1", "DEBIT", "2024-02-03 00:00:00+00:00", -25, "SHOP", "", some 1, ""⟩],
   [], 2⟩

/-- Counterexample to claim C1 as stated: it quantifies over every store
state, but on a store that already contains a row matching `R` both merges
are no-ops, so `count_records` rises by 0, not by exactly 1. -/
theorem merge_twice_count_cex :
    ¬ (count_records (merge_record (merge_record db_c1 r_c1) r_c1) =
        count_records db_c1 + 1) := by
  decide

/-- `get_record_by_fitid`: `SELECT * FROM transactions WHERE fitid = ?`;
the Python returns `rows[0] if len(rows) == 1 else None`. -/
def get_record_by_fitid (db : DB) (fid : Nat) : Option TxnRow :=
  let rows := db.txns.filter (fun t => t.fitid == fid)
  if rows.length == 1 then rows.head? else none

/-- `get_category_id`: `SELECT id FROM categories WHERE name = ? AND
subcategory = ?`, then `for row in result: return row[0]` -- the first
matching row's id.  The guard `if not result: raise ...` tests the cursor
object returned by `execute`, which is always truthy, so the raise is
unreachable; with no matching row the loop body never runs and the Python
function returns `None`. -/
def get_category_id (db : DB) (category subcategory : String) : Option Nat :=
  (db.cats.find? (fun c => c.name == category && c.subcategory == subcategory)).map
    (fun c => c.id)

/-- Claim C2, evaluated at a failing input: on a category table holding
only the seeded default row, looking up a missing `(name, subcategory)`
pair returns `none` instead of failing with `NotFoundError` (the error
branch in the source is dead code); a present pair does return its id. -/
theorem get_category_id_missing_returns_none :
    get_category_id ⟨[], [⟨1, "No Category", "", 0⟩], 1⟩ "Entertainment" "Coffee" =
      none ∧
    get_category_id ⟨[], [⟨1, "No Category", "", 0⟩], 1⟩ "No Category" "" =
      some 1 := by
  decide

/-- Claim C6: two records identical on the dedup six-tuple but with
different checknums are treated as the same transaction: once the first is
merged, `find_duplicate_by_content` on the second finds a stored matching
row, and merging the second is a no-op on the store. -/
theorem dedup_excludes_checknum (db : DB) (r1 r2 : Record)
    (hacct : r1.account = r2.account) (hposted : r1.posted = r2.posted)
    (hamount : r1.amount = r2.amount) (hname : r1.name = r2.name)
    (hmemo : r1.memo = r2.memo) (htype : r1.type = r2.type)
    (hchk : r1.checknum ≠ r2.checknum) :
    (∃ t, find_duplicate_by_content (merge_record db r1) r2 = some t ∧
      matches_content t r2 = true) ∧
    merge_record (merge_record db r1) r2 = merge_record db r1 := by
  have hm : ∀ t : TxnRow, matches_content t r2 = matches_content t r1 := by
    intro t
    simp [matches_content, hacct, hposted, hamount, hname, hmemo, htype]
  have hfind : ∀ d : DB, find_duplicate_by_content d r2 =
      find_duplicate_by_content d r1 := by
    intro d
    unfold find_duplicate_by_content
    simp only [hm]
  cases hfd : find_duplicate_by_content db r1 with
  | some t =>
    have hdb : merge_record db r1 = db := by simp [merge_record, hfd]
    have ht1 : matches_content t r1 = true := by
      unfold find_duplicate_by_content at hfd
      have hp := List.find?_some hfd
      simpa using hp
    have ht2 : matches_content t r2 = true := by
      rw [hm]
      exact ht1
    refine ⟨⟨t, ?_, ht2⟩, ?_⟩
    · rw [hdb, hfind db, hfd]
    · rw [hdb]
      simp [merge_record, hfind db, hfd]
  | none =>
    have hdb : merge_record db r1 = insert_record db r1 := by
      simp [merge_record, hfd]
    have hfi : find_duplicate_by_content (insert_record db r1) r2 =
        some (new_row db r1) := by
      rw [hfind]
      exact find_dup_insert db r1 hfd
    refine ⟨⟨new_row db r1, ?_, ?_⟩, ?_⟩
    · rw [hdb]; exact hfi
    · rw [hm]; exact matches_new_row db r1
    · rw [hdb]
      simp [merge_record, hfi]

/-- Witness for `dedup_excludes_checknum`: two concrete records equal on
the six-tuple, differing only in checknum, merged into the empty store. -/
theorem dedup_excludes_checknum_wit :
    (let db : DB := ⟨[], [], 1⟩
     let r1 : Record :=
       ⟨"a1", "CHECK", "2024-05-06 00:00:00+00:00", -40, "N", "M", some "101"⟩
     let r2 : Record :=
       ⟨"a1", "CHECK", "2024-05-06 00:00:00+00:00", -40, "N", "M", some "202"⟩
     (∃ t, find_duplicate_by_content (merge_record db r1) r2 = some t ∧
       matches_content t r2 = true) ∧
     merge_record (merge_record db r1) r2 = merge_record db r1) :=
  dedup_excludes_checknum ⟨[], [], 1⟩
    ⟨"a1", "CHECK", "2024-05-06 00:00:00+00:00", -40, "N", "M", some "101"⟩
    ⟨"a1", "CHECK", "2024-05-06 00:00:00+00:00", -40, "N", "M", some "202"⟩
    rfl rfl rfl rfl rfl rfl (by decide)

/-- Claim C10: `get_record_by_fitid` returns a stored row if and only if
exactly one transaction row carries the given fitid: a returned row
implies the match is unique (and is that matching stored row), a store
whose matching rows are exactly `[t]` gets `some t` back, and with zero
or several matching rows it returns `none` rather than raising or picking
a row. -/
theorem get_record_by_fitid_spec (db : DB) (fid : Nat) :
    (∀ t, get_record_by_fitid db fid = some t →
      (db.txns.filter (fun x => x.fitid == fid)).length = 1 ∧
      t ∈ db.txns ∧ t.fitid = fid) ∧
    (∀ t, db.txns.filter (fun x => x.fitid == fid) = [t] →
      get_record_by_fitid db fid = some t) ∧
    ((db.txns.filter (fun x => x.fitid == fid)).length ≠ 1 →
      get_record_by_fitid db fid = none) := by
  refine ⟨?_, ?_, ?_⟩
  · intro t ht
    unfold get_record_by_fitid at ht
    by_cases hlen : (db.txns.filter (fun x => x.fitid == fid)).length = 1
    · have hft : List.find? (fun x => x.fitid == fid) db.txns = some t := by
        simp only [hlen] at ht
        simpa using ht
      refine ⟨hlen, List.mem_of_find?_eq_some hft, ?_⟩
      simpa using List.find?_some hft
    · simp only [beq_iff_eq, hlen, if_false] at ht
      exact absurd ht (by simp)
  · intro t ht
    unfold get_record_by_fitid
    rw [ht]
    rfl
  · intro hlen
    unfold get_record_by_fitid
    simp only [beq_iff_eq, hlen, if_false]

/-- Witness for `get_record_by_fitid_spec`: a store where exactly one row
carries fitid 1 -- the lookup returns exactly that row -- and the same
store queried for an absent fitid, where the lookup returns `none`. -/
theorem get_record_by_fitid_spec_wit :
    (let db : DB :=
      ⟨[⟨1, "a", "DEBIT", "2024-01-01 00:00:00+00:00", -1, "n", "", some 1, ""⟩],
       [], 2⟩
     get_record_by_fitid db 1 =
       some ⟨1, "a", "DEBIT", "2024-01-01 00:00:00+00:00", -1, "n", "", some 1, ""⟩ ∧
     get_record_by_fitid db 7 = none) := by
  constructor
  · exact (get_record_by_fitid_spec
      ⟨[⟨1, "a", "DEBIT", "2024-01-01 00:00:00+00:00", -1, "n", "", some 1, ""⟩], [], 2⟩ 1).2.1
      ⟨1, "a", "DEBIT", "2024-01-01 00:00:00+00:00", -1, "n", "", some 1, ""⟩ (by decide)
  · exact (get_record_by_fitid_spec
      ⟨[⟨1, "a", "DEBIT", "2024-01-01 00:00:00+00:00", -1, "n", "", some 1, ""⟩], [], 2⟩ 7).2.2
      (by decide)

/-- The closed error kinds of the spec's taxonomy that the ledger methods
can signal: `NotFoundError` (zero rows matched) and `IntegrityError`
(several rows matched where one was expected).  The Python raises generic
`Exception`s with corresponding messages. -/
inductive DbError where
  | notFound : DbError
  | integrity : DbError
deriving DecidableEq

/-- SQL equality between the nullable `category` column and a possibly
NULL parameter: `category = ?` is true only when both sides are non-NULL
and equal (comparison with NULL is never true). -/
def sql_eq_opt : Option Nat → Option Nat → Bool
  | some a, some b => a == b
  | _, _ => false

/-- SQLite `LIKE` on character lists: `%` matches any run of characters,
`_` any single character, and plain characters compare ASCII
case-insensitively. -/
def like_match : List Char → List Char → Bool
  | [], [] => true
  | [], _ :: _ => false
  | '%' :: ps, [] => like_match ps []
  | '%' :: ps, c :: cs => like_match ps (c :: cs) || like_match ('%' :: ps) cs
  | '_' :: _, [] => false
  | '_' :: ps, _ :: cs => like_match ps cs
  | _ :: _, [] => false
  | p :: ps, c :: cs => (p.toLower == c.toLower) && like_match ps cs
termination_by ps s => (ps.length, s.length)

/-- `name LIKE pattern` for strings. -/
def sql_like (s pat : String) : Bool :=
  like_match pat.toList s.toList

/-- `set_txn_category`: looks up the category id, runs `UPDATE
transactions SET category = ? WHERE fitid = ?`, and then checks
`cursor.rowcount`: zero affected rows raises the not-found error, several
raise the integrity error, otherwise the update commits. -/
def set_txn_category (db : DB) (fid : Nat) (category subcategory : String) :
    Except DbError DB :=
  let category_id := get_category_id db category subcategory
  let updated := db.txns.map
    (fun t => if t.fitid == fid then { t with category := category_id } else t)
  let rows_affected := (db.txns.filter (fun t => t.fitid == fid)).length
  if rows_affected == 0 then Except.error DbError.notFound
  else if rows_affected > 1 then Except.error DbError.integrity
  else Except.ok { db with txns := updated }

/-- `bulk_categorize`: with `include_categorized=False` the update is
`UPDATE transactions SET category = ? WHERE name LIKE ? AND category = ?`
against the default category's id (a NULL default id matches no row);
with `include_categorized=True` the `category` filter is dropped.  The
`if not result: raise` guard tests the cursor and is unreachable. -/
def bulk_categorize (db : DB) (txn_pattern category subcategory : String)
    (include_categorized : Bool) : DB :=
  let category_id := get_category_id db category subcategory
  if !include_categorized then
    let default_category_id := get_category_id db DEFAULT_CATEGORY EMPTY_SUBCATEGORY
    { db with txns := db.txns.map (fun t =>
        if sql_like t.name txn_pattern && sql_eq_opt t.category default_category_id
        then { t with category := category_id } else t) }
  else
    { db with txns := db.txns.map (fun t =>
        if sql_like t.name txn_pattern
        then { t with category := category_id } else t) }

/-- Claim C7: `set_txn_category` fails with the not-found error when zero
transaction rows carry the given fitid, fails with the integrity error
when several do, and with exactly one matching row succeeds, setting
exactly that row's category to the looked-up id and leaving every other
row unchanged. -/
theorem set_txn_category_spec (db : DB) (fid : Nat) (category subcategory : String) :
    ((db.txns.filter (fun t => t.fitid == fid)).length = 0 →
      set_txn_category db fid category subcategory = Except.error DbError.notFound) ∧
    (1 < (db.txns.filter (fun t => t.fitid == fid)).length →
      set_txn_category db fid category subcategory = Except.error DbError.integrity) ∧
    ((db.txns.filter (fun t => t.fitid == fid)).length = 1 →
      set_txn_category db fid category subcategory = Except.ok
        { db with txns := db.txns.map (fun t =>
            if t.fitid == fid
            then { t with category := get_category_id db category subcategory }
            else t) }) := by
  refine ⟨fun h0 => ?_, fun h2 => ?_, fun h1 => ?_⟩
  · simp [set_txn_category, h0]
  · have hne : (db.txns.filter (fun t => t.fitid == fid)).length ≠ 0 := by omega
    simp [set_txn_category, hne, h2]
  · simp [set_txn_category, h1]

/-- Witness for `set_txn_category_spec`: a store with one row of fitid 1;
the not-found branch at an absent fitid and the success branch at fitid 1,
both at concrete inputs. -/
theorem set_txn_category_spec_wit :
    (let t1 : TxnRow :=
      ⟨1, "a", "DEBIT", "2024-01-01 00:00:00+00:00", -1, "n", "", some 1, ""⟩
     let db : DB := ⟨[t1], [⟨1, "No Category", "", 0⟩, ⟨4, "Auto", "Gas", 2⟩], 2⟩
     set_txn_category db 9 "Auto" "Gas" = Except.error DbError.notFound ∧
     set_txn_category db 1 "Auto" "Gas" = Except.ok
       { db with txns := db.txns.map (fun t =>
           if t.fitid == 1
           then { t with category := get_category_id db "Auto" "Gas" }
           else t) }) := by
  constructor
  · exact (set_txn_category_spec
      ⟨[⟨1, "a", "DEBIT", "2024-01-01 00:00:00+00:00", -1, "n", "", some 1, ""⟩],
       [⟨1, "No Category", "", 0⟩, ⟨4, "Auto", "Gas", 2⟩], 2⟩ 9 "Auto" "Gas").1
      (by decide)
  · exact (set_txn_category_spec
      ⟨[⟨1, "a", "DEBIT", "2024-01-01 00:00:00+00:00", -1, "n", "", some 1, ""⟩],
       [⟨1, "No Category", "", 0⟩, ⟨4, "Auto", "Gas", 2⟩], 2⟩ 1 "Auto" "Gas").2.2
      (by decide)

/-- Claim C8: with the scoping flag left at its default (false),
`bulk_categorize` rewrites exactly the rows whose name matches the pattern
and whose current category is the default category's id; every
name-matching row already on a non-default category and every
non-matching row is left unchanged.  With the flag true, every
name-matching row is rewritten regardless of its current category. -/
theorem bulk_categorize_scoping (db : DB) (txn_pattern category subcategory : String)
    (d : Nat)
    (hdef : get_category_id db DEFAULT_CATEGORY EMPTY_SUBCATEGORY = some d) :
    (bulk_categorize db txn_pattern category subcategory false).txns =
      db.txns.map (fun t =>
        if sql_like t.name txn_pattern && t.category == some d
        then { t with category := get_category_id db category subcategory }
        else t) ∧
    (∀ t ∈ db.txns, (sql_like t.name txn_pattern = false ∨ t.category ≠ some d) →
      t ∈ (bulk_categorize db txn_pattern category subcategory false).txns) ∧
    (bulk_categorize db txn_pattern category subcategory true).txns =
      db.txns.map (fun t =>
        if sql_like t.name txn_pattern
        then { t with category := get_category_id db category subcategory }
        else t) := by
  have heq : ∀ t : TxnRow,
      sql_eq_opt t.category (some d) = (t.category == some d) := by
    intro t
    cases t.category with
    | none => simp [sql_eq_opt]
    | some c => simp [sql_eq_opt]
  refine ⟨?_, ?_, ?_⟩
  · simp only [bulk_categorize, hdef, Bool.not_false, if_true, heq]
  · intro t hmem hskip
    simp only [bulk_categorize, hdef, Bool.not_false, if_true, heq]
    have hcond : (sql_like t.name txn_pattern && t.category == some d) = false := by
      rcases hskip with h | h
      · simp [h]
      · simp [h]
    refine List.mem_map.mpr ⟨t, hmem, ?_⟩
    simp [hcond]
  · simp [bulk_categorize]

/-- Witness for `bulk_categorize_scoping`: the spec's own example shape --
a STARBUCKS pattern over a store whose category table holds the default
category -- applied at a concrete store. -/
theorem bulk_categorize_scoping_wit :
    (let t1 : TxnRow :=
      ⟨1, "a", "DEBIT", "2024-01-01 00:00:00+00:00", -4, "STARBUCKS 123", "", some 1, ""⟩
     let t2 : TxnRow :=
      ⟨2, "a", "DEBIT", "2024-01-02 00:00:00+00:00", -4, "STARBUCKS 456", "", some 9, ""⟩
     let db : DB :=
      ⟨[t1, t2], [⟨1, "No Category", "", 0⟩, ⟨7, "Entertainment", "Coffee", 2⟩], 3⟩
     (bulk_categorize db "STARBUCKS%" "Entertainment" "Coffee" false).txns =
       db.txns.map (fun t =>
         if sql_like t.name "STARBUCKS%" && t.category == some 1
         then { t with category := get_category_id db "Entertainment" "Coffee" }
         else t) ∧
     (∀ t ∈ db.txns, (sql_like t.name "STARBUCKS%" = false ∨ t.category ≠ some 1) →
       t ∈ (bulk_categorize db "STARBUCKS%" "Entertainment" "Coffee" false).txns) ∧
     (bulk_categorize db "STARBUCKS%" "Entertainment" "Coffee" true).txns =
       db.txns.map (fun t =>
         if sql_like t.name "STARBUCKS%"
         then { t with category := get_category_id db "Entertainment" "Coffee" }
         else t)) :=
  bulk_categorize_scoping
    ⟨[⟨1, "a", "DEBIT", "2024-01-01 00:00:00+00:00", -4, "STARBUCKS 123", "", some 1, ""⟩,
      ⟨2, "a", "DEBIT", "2024-01-02 00:00:00+00:00", -4, "STARBUCKS 456", "", some 9, ""⟩],
     [⟨1, "No Category", "", 0⟩, ⟨7, "Entertainment", "Coffee", 2⟩], 3⟩
    "STARBUCKS%" "Entertainment" "Coffee" 1 (by decide)

/-- SQLite `ABS` on an exact amount. -/
def q_abs (x : ℚ) : ℚ :=
  if x < 0 then -x else x

/-- `STRFTIME("%Y", posted)` on a well-formed stored timestamp
(`YYYY-MM-DD HH:MM:SS+hh:mm`): the first four characters. -/
def year_of (s : String) : String :=
  (s.toList.take 4).asString

/-- The numeric month of a well-formed stored timestamp: characters five
and six, read as a decimal number (`int(STRFTIME("%m", posted))`). -/
def month_num (s : String) : Nat :=
  (((s.toList.drop 5).take 2).asString).toNat?.getD 0

/-- The zero-based month index `int(month) - 1` used to address the
twelve-slot months array. -/
def month_idx (s : String) : Nat :=
  month_num s - 1

/-- The `amount < 0` filter of both report queries. -/
def is_outflow (t : TxnRow) : Bool :=
  t.amount < 0

/-- Membership of a transaction in the `(year, month-index)` group of the
report's outflow query. -/
def outflow_in_month (t : TxnRow) (y : String) (m : Nat) : Bool :=
  is_outflow t && year_of t.posted == y && month_idx t.posted == m

/-- `SUM(ABS(amount))` of the first report query for one
`(year, month)` group: total absolute outflow. -/
def month_total (db : DB) (y : String) (m : Nat) : ℚ :=
  ((db.txns.filter (fun t => outflow_in_month t y m)).map
    (fun t => q_abs t.amount)).foldl (fun a b => a + b) 0

/-- Contribution of one transaction to the second report query's join
`transactions, categories WHERE txn.category = cat.id AND NOT
cat.expense_type`: `ABS(amount)` once per joined category row with
`expense_type = 0` (SQLite `NOT x` is true exactly on 0). -/
def txn_non_expense_amount (db : DB) (t : TxnRow) : ℚ :=
  ((db.cats.filter (fun c =>
      sql_eq_opt t.category (some c.id) && c.expense_type == 0)).map
    (fun _ => q_abs t.amount)).foldl (fun a b => a + b) 0

/-- `SUM(ABS(amount))` of the second report query for one
`(year, month)` group: absolute outflow in non-expense categories, the
amount subtracted back out of the month's entry. -/
def non_expense_total (db : DB) (y : String) (m : Nat) : ℚ :=
  ((db.txns.filter (fun t => outflow_in_month t y m)).map
    (fun t => txn_non_expense_amount db t)).foldl (fun a b => a + b) 0

/-- Whether the first report query produces a row for `(y, m)`, i.e. the
month's slot in the twelve-entry array is filled rather than left `None`. -/
def month_has_outflow (db : DB) (y : String) (m : Nat) : Bool :=
  db.txns.any (fun t => outflow_in_month t y m)

/-- One slot of a report year's months array: absent when the month has no
outflow row, otherwise the first query's total with the second query's
non-expense total subtracted. -/
def month_entry (db : DB) (y : String) (m : Nat) : Option ℚ :=
  if month_has_outflow db y m
  then some (month_total db y m - non_expense_total db y m)
  else none

/-- The twelve-slot months array of one report year. -/
def year_months (db : DB) (y : String) : List (Option ℚ) :=
  (List.range 12).map (fun m => month_entry db y m)

/-- The monthly values present in a months array (the slots that are not
`None`), in month order -- the values the final loop of `get_report`
iterates over. -/
def present_values (ms : List (Option ℚ)) : List ℚ :=
  ms.filterMap id

/-- The running `sum` accumulated by the final loop of `get_report`. -/
def year_sum (ms : List (Option ℚ)) : ℚ :=
  (present_values ms).foldl (fun a b => a + b) 0

/-- The `minimum` accumulator of the final loop: first present value, then
replaced whenever a smaller value appears. -/
def year_minimum (ms : List (Option ℚ)) : Option ℚ :=
  (present_values ms).foldl
    (fun acc v => match acc with
      | none => some v
      | some a => if v < a then some v else some a) none

/-- The `maximum` accumulator of the final loop. -/
def year_maximum (ms : List (Option ℚ)) : Option ℚ :=
  (present_values ms).foldl
    (fun acc v => match acc with
      | none => some v
      | some a => if v > a then some v else some a) none

/-- `average = sum / n` over the present months.  In the Python, `n` is
the number of present slots; a year only enters the report with at least
one present slot, so the division is never by zero (`0 / 0 = 0` of `ℚ` is
never exercised; see `report_average_present_months`). -/
def year_average (ms : List (Option ℚ)) : Option ℚ :=
  some (year_sum ms / ((present_values ms).length : ℚ))

/-- One year's entry in the report dictionary. -/
structure YearData where
  months : List (Option ℚ)
  minimum : Option ℚ
  maximum : Option ℚ
  average : Option ℚ
deriving DecidableEq

/-- The value stored under one year key by `get_report`. -/
def year_data (db : DB) (y : String) : YearData :=
  { months := year_months db y
    minimum := year_minimum (year_months db y)
    maximum := year_maximum (year_months db y)
    average := year_average (year_months db y) }

/-- The report's year keys: the distinct years among negative-amount
transactions (the years for which the first query returns a group). -/
def report_years (db : DB) : List String :=
  ((db.txns.filter (fun t => is_outflow t)).map (fun t => year_of t.posted)).dedup

/-- `get_report` as a year-keyed association list. -/
def get_report (db : DB) : List (String × YearData) :=
  (report_years db).map (fun y => (y, year_data db y))

/-- Lookup of one year's entry in the report. -/
def report_entry (db : DB) (y : String) : Option YearData :=
  ((get_report db).find? (fun p => p.1 == y)).map (fun p => p.2)

/-- Categories for the C4 scenario: the seeded default plus a non-expense
and a recurring-expense category. -/
def cats_c4 : List CategoryRow :=
  [⟨1, "No Category", "", 0⟩, ⟨2, "Savings", "", 0⟩, ⟨3, "Expense", "", 2⟩]

/-- Store for the C4 scenario: exactly two transactions posted in 2024-03,
amount -100 in the non-expense category and amount -50 in the
recurring-expense category. -/
def db_c4 : DB :=
  ⟨[⟨1, "acct1", "XFER", "2024-03-05 00:00:00+00:00", -100, "TO SAVINGS", "", some 2, ""⟩,
    ⟨2, "acct1", "DEBIT", "2024-03-08 00:00:00+00:00", -50, "GROCERY", "", some 3, ""⟩],
   cats_c4, 3⟩

/-- Claim C4: on the two-transaction 2024-03 store, the report's "2024"
entry at zero-based month index 2 equals 50 -- the total absolute outflow
150 with the 100 of non-expense outflow subtracted back out. -/
theorem report_non_expense_subtracted :
    Option.bind (report_entry db_c4 "2024")
      (fun yd => yd.months.getD 2 none) = some (50 : ℚ) := by
  with_unfolding_all decide

/-- Well-formedness of the stored timestamps: every transaction's posted
month reads back as a number from 1 to 12 (what `STRFTIME("%m", ...)`
guarantees on real timestamps). -/
@[reducible] def valid_posted (db : DB) : Prop :=
  ∀ t ∈ db.txns, 1 ≤ month_num t.posted ∧ month_num t.posted ≤ 12

theorem month_idx_lt_12 (s : String) (h1 : 1 ≤ month_num s)
    (h2 : month_num s ≤ 12) : month_idx s < 12 := by
  unfold month_idx
  omega

/-- Claim C5: every year present in the report has at least one month with
data, and its average is the sum of exactly the present monthly values
divided by their number (so two months of data average over two, and the
division-by-zero case is unreachable); a year with no qualifying month
never appears in the report, so its average is absent rather than
computed. -/
theorem report_average_present_months (db : DB) (y : String)
    (hv : valid_posted db) :
    (∀ yd, report_entry db y = some yd →
      1 ≤ (present_values yd.months).length ∧
      yd.average = some (year_sum yd.months /
        ((present_values yd.months).length : ℚ))) ∧
    ((∀ t ∈ db.txns, is_outflow t = true → year_of t.posted ≠ y) →
      report_entry db y = none) := by
  constructor
  · intro yd hyd
    unfold report_entry at hyd
    cases hfind : (get_report db).find? (fun p => p.1 == y) with
    | none => rw [hfind] at hyd; exact absurd hyd (by simp)
    | some p =>
      rw [hfind] at hyd
      have hp2 : p.2 = yd := by simpa using hyd
      have hpmem : p ∈ get_report db := List.mem_of_find?_eq_some hfind
      have hpy : p.1 = y := by
        have := List.find?_some hfind
        simpa using this
      unfold get_report at hpmem
      rcases List.mem_map.mp hpmem with ⟨y0, hy0mem, hy0eq⟩
      have hy0 : y0 = y := by
        have : (y0, year_data db y0).1 = y := by rw [hy0eq, hpy]
        simpa using this
      rw [hy0] at hy0mem hy0eq
      have hyd_eq : yd = year_data db y := by
        rw [← hp2, ← hy0eq]
      rw [hyd_eq]
      -- a year key comes from some outflow transaction of that year
      unfold report_years at hy0mem
      rcases List.mem_map.mp (List.mem_dedup.mp hy0mem) with ⟨t, htmem, hty⟩
      have htout : is_outflow t = true := (List.mem_filter.mp htmem).2
      have htxn : t ∈ db.txns := (List.mem_filter.mp htmem).1
      -- its month slot is present in the months array
      have hmrange : month_idx t.posted < 12 :=
        month_idx_lt_12 t.posted (hv t htxn).1 (hv t htxn).2
      have hhas : month_has_outflow db y (month_idx t.posted) = true := by
        unfold month_has_outflow
        refine List.any_eq_true.mpr ⟨t, htxn, ?_⟩
        simp [outflow_in_month, htout, hty]
      have hsome : month_entry db y (month_idx t.posted) =
          some (month_total db y (month_idx t.posted) -
            non_expense_total db y (month_idx t.posted)) := by
        simp [month_entry, hhas]
      have hmem_months : month_entry db y (month_idx t.posted) ∈
          year_months db y := by
        unfold year_months
        exact List.mem_map.mpr ⟨month_idx t.posted, List.mem_range.mpr hmrange, rfl⟩
      have hval : (month_total db y (month_idx t.posted) -
          non_expense_total db y (month_idx t.posted)) ∈
          present_values (year_months db y) := by
        unfold present_values
        refine List.mem_filterMap.mpr ⟨month_entry db y (month_idx t.posted),
          hmem_months, ?_⟩
        rw [hsome]; rfl
      constructor
      · have hne : present_values (year_months db y) ≠ [] :=
          List.ne_nil_of_mem hval
        have hpos := List.length_pos.mpr hne
        show 1 ≤ (present_values (year_data db y).months).length
        simpa [year_data] using hpos
      · rfl
  · intro hno
    unfold report_entry
    have hnone : (get_report db).find? (fun p => p.1 == y) = none := by
      rw [List.find?_eq_none]
      intro p hpmem
      unfold get_report at hpmem
      rcases List.mem_map.mp hpmem with ⟨y0, hy0mem, hy0eq⟩
      unfold report_years at hy0mem
      rcases List.mem_map.mp (List.mem_dedup.mp hy0mem) with ⟨t, htmem, hty⟩
      have htout : is_outflow t = true := (List.mem_filter.mp htmem).2
      have htxn : t ∈ db.txns := (List.mem_filter.mp htmem).1
      have hy0ne : y0 ≠ y := hty ▸ hno t htxn htout
      rw [← hy0eq]
      simpa using hy0ne
    rw [hnone]
    rfl

/-- Store for the C5 witness: outflows in exactly two months of 2024
(30 in January, 50 in April). -/
def db_c5 : DB :=
  ⟨[⟨1, "a", "DEBIT", "2024-01-10 00:00:00+00:00", -30, "n1", "", some 3, ""⟩,
    ⟨2, "a", "DEBIT", "2024-04-20 00:00:00+00:00", -50, "n2", "", some 3, ""⟩],
   [⟨1, "No Category", "", 0⟩, ⟨3, "Expense", "", 2⟩], 3⟩

/-- Witness for `report_average_present_months`: on `db_c5` the year
"2024" has exactly the two present months, and its average divides by 2;
the year "1999", having no qualifying month, is absent from the report. -/
theorem report_average_present_months_wit :
    ((present_values (year_data db_c5 "2024").months).length = 2 ∧
      (year_data db_c5 "2024").average = some (40 : ℚ) ∧
      1 ≤ (present_values (year_data db_c5 "2024").months).length ∧
      (year_data db_c5 "2024").average = some (year_sum (year_data db_c5 "2024").months /
        ((present_values (year_data db_c5 "2024").months).length : ℚ))) ∧
    report_entry db_c5 "1999" = none := by
  constructor
  · refine ⟨by with_unfolding_all decide, by with_unfolding_all decide, ?_⟩
    exact (report_average_present_months db_c5 "2024" (by with_unfolding_all decide)).1
      (year_data db_c5 "2024") (by with_unfolding_all decide)
  · exact (report_average_present_months db_c5 "1999" (by with_unfolding_all decide)).2
      (by with_unfolding_all decide)

/-- One row of `PRAGMA table_info(transactions)`: the column name, its
declared type string, and the truthiness of the primary-key flag
(`col[1]`, `col[2]`, `col[5]` in the Python). -/
structure ColumnInfo where
  cname : String
  declType : String
  pk : Bool
deriving DecidableEq

/-- The structural state of one store that the schema-manager methods read
and rewrite: the transaction table's column metadata (`none` when the
table is absent), the names of the indexes on the transaction table
(`DROP TABLE` drops them with it), the transaction row count (every
rebuild copies all rows), and presence flags for the two other tables. -/
structure SchemaDB where
  txn_cols : Option (List ColumnInfo)
  txn_indexes : List String
  txn_row_count : Nat
  cat_table : Bool
  rules_table : Bool
deriving DecidableEq

/-- The column layout of a freshly created `transactions` table:
`fitid INTEGER PRIMARY KEY AUTOINCREMENT` plus the eight payload columns
(as `PRAGMA table_info` reports them). -/
def new_txn_cols : List ColumnInfo :=
  [⟨"fitid", "INTEGER", true⟩, ⟨"account", "TEXT", false⟩,
   ⟨"type", "TEXT", false⟩, ⟨"posted", "TEXT", false⟩,
   ⟨"amount", "FLOAT", false⟩, ⟨"name", "TEXT", false⟩,
   ⟨"memo", "TEXT", false⟩, ⟨"category", "INT", false⟩,
   ⟨"checknum", "TEXT", false⟩]

/-- The loop `for col in columns: if col[1] == 'fitid'` -- the first
column named `fitid`, if any. -/
def find_fitid_col (cols : List ColumnInfo) : Option ColumnInfo :=
  cols.find? (fun c => c.cname == "fitid")

/-- `_create_txn_table_if_missing`: when the table is absent, create it
with the current layout and its `content_lookup` dedup index (a fresh
table has no rows and no other indexes). -/
def create_txn_table_if_missing (s : SchemaDB) : SchemaDB :=
  match s.txn_cols with
  | some _ => s
  | none =>
    { s with
      txn_cols := some new_txn_cols
      txn_indexes := ["content_lookup"]
      txn_row_count := 0 }

/-- `_create_category_table_if_missing` (its index and seeding touch only
the category table, which this structural model tracks as a presence
flag). -/
def create_category_table_if_missing (s : SchemaDB) : SchemaDB :=
  { s with cat_table := true }

/-- `_create_rules_table_if_missing`. -/
def create_rules_table_if_missing (s : SchemaDB) : SchemaDB :=
  { s with rules_table := true }

/-- `migrate_to_auto_fitid`: inspects `PRAGMA table_info`; when a `fitid`
column exists whose type is not `INTEGER` (case-insensitively) or whose
pk flag is falsy, it rebuilds the table (create-new, copy all rows,
drop-old, rename) with the current auto-id layout and recreates the
`content_lookup` index (the drop removes the old table's indexes); when
the `fitid` column is already an auto-id integer primary key, or when no
`fitid` column is found (brand-new or absent table), it does nothing. -/
def migrate_to_auto_fitid (s : SchemaDB) : SchemaDB :=
  match find_fitid_col (s.txn_cols.getD []) with
  | some c =>
    if c.declType.toUpper != "INTEGER" || !c.pk then
      { s with
        txn_cols := some new_txn_cols
        txn_indexes := ["content_lookup"]
        txn_row_count := s.txn_row_count }
    else s
  | none => s

theorem migrate_of_no_fitid (s : SchemaDB)
    (h : find_fitid_col (s.txn_cols.getD []) = none) :
    migrate_to_auto_fitid s = s := by
  unfold migrate_to_auto_fitid
  rw [h]

theorem migrate_of_bad_fitid (s : SchemaDB) (c : ColumnInfo)
    (h : find_fitid_col (s.txn_cols.getD []) = some c)
    (hcond : (c.declType.toUpper != "INTEGER" || !c.pk) = true) :
    migrate_to_auto_fitid s =
      { s with txn_cols := some new_txn_cols
               txn_indexes := ["content_lookup"]
               txn_row_count := s.txn_row_count } := by
  unfold migrate_to_auto_fitid
  rw [h]
  simp only [hcond, if_true]

theorem migrate_of_good_fitid (s : SchemaDB) (c : ColumnInfo)
    (h : find_fitid_col (s.txn_cols.getD []) = some c)
    (hcond : (c.declType.toUpper != "INTEGER" || !c.pk) = false) :
    migrate_to_auto_fitid s = s := by
  unfold migrate_to_auto_fitid
  rw [h]
  simp only [hcond, Bool.false_eq_true, if_false]

theorem find_fitid_new_txn_cols :
    find_fitid_col new_txn_cols = some ⟨"fitid", "INTEGER", true⟩ := by
  with_unfolding_all decide

theorem new_fitid_cond :
    ((⟨"fitid", "INTEGER", true⟩ : ColumnInfo).declType.toUpper != "INTEGER" ||
      !(⟨"fitid", "INTEGER", true⟩ : ColumnInfo).pk) = false := by
  with_unfolding_all decide

theorem good_cond_iff (c : ColumnInfo) :
    ((c.declType.toUpper != "INTEGER" || !c.pk) = false) ↔
      (c.declType.toUpper = "INTEGER" ∧ c.pk = true) := by
  cases hpk : c.pk <;> simp [hpk]

/-- `migrate_unique_constraint`: when the legacy `acct_fitid` index exists
and `acct_fitid_posted` does not, report (not discard) old-constraint
duplicates, drop the old index and create the new one; otherwise do
nothing. -/
def migrate_unique_constraint (s : SchemaDB) : SchemaDB :=
  if s.txn_indexes.contains "acct_fitid" &&
      !(s.txn_indexes.contains "acct_fitid_posted") then
    { s with
      txn_indexes := (s.txn_indexes.erase "acct_fitid") ++ ["acct_fitid_posted"] }
  else s

/-- The column layout produced by `migrate_fitid_to_text`: `fitid TEXT`
with no primary-key flag, the other columns unchanged. -/
def text_fitid_cols : List ColumnInfo :=
  [⟨"fitid", "TEXT", false⟩, ⟨"account", "TEXT", false⟩,
   ⟨"type", "TEXT", false⟩, ⟨"posted", "TEXT", false⟩,
   ⟨"amount", "FLOAT", false⟩, ⟨"name", "TEXT", false⟩,
   ⟨"memo", "TEXT", false⟩, ⟨"category", "INT", false⟩,
   ⟨"checknum", "TEXT", false⟩]

/-- `migrate_fitid_to_text`: when the `fitid` column's declared type is
exactly `INT` (upper-cased), rebuild the table with a text id column,
casting and copying all rows, and recreate the `acct_fitid_posted` unique
index; in every other case (already `TEXT`, or no `fitid` column) do
nothing. -/
def migrate_fitid_to_text (s : SchemaDB) : SchemaDB :=
  match find_fitid_col (s.txn_cols.getD []) with
  | some c =>
    if c.declType.toUpper == "INT" then
      { s with
        txn_cols := some text_fitid_cols
        txn_indexes := ["acct_fitid_posted"]
        txn_row_count := s.txn_row_count }
    else s
  | none => s

/-- `_open_database` after the connection/unlock step: create the three
tables if missing, then run `migrate_to_auto_fitid` -- the only migration
the open path invokes. -/
def open_database (s : SchemaDB) : SchemaDB :=
  migrate_to_auto_fitid
    (create_rules_table_if_missing
      (create_category_table_if_missing
        (create_txn_table_if_missing s)))

/-- A store whose transaction table is already on the auto-id layout but
still carries the legacy `acct_fitid` unique index (and lacks
`acct_fitid_posted`), i.e. a store to which the unique-constraint
migration applies. -/
def s_c3 : SchemaDB :=
  { txn_cols := some new_txn_cols
    txn_indexes := ["content_lookup", "acct_fitid"]
    txn_row_count := 3
    cat_table := true
    rules_table := true }

/-- Counterexample to claim C3 as stated: opening the store `s_c3` leaves
the legacy `acct_fitid` index in place and the unique-constraint
migration still applicable (applying it afterwards changes the store), so
store-open does not run all three migrations -- it runs only the auto-id
one. -/
theorem open_database_skips_unique_migration_cex :
    (open_database s_c3).txn_indexes.contains "acct_fitid" = true ∧
    (open_database s_c3).txn_indexes.contains "acct_fitid_posted" = false ∧
    migrate_unique_constraint (open_database s_c3) ≠ open_database s_c3 := by
  with_unfolding_all decide

/-- Claim C3 (amended): on every store-open after table creation only the
auto-id migration runs (deciding internally whether it applies): after
open, a `fitid` column, when present, is always an auto-id integer
primary key; and a store already on the auto-id layout with all tables
present is returned completely unchanged by open -- in particular the
unique-constraint and id-type migrations are never invoked there, even
when they would apply. -/
theorem open_database_only_auto_fitid (s : SchemaDB) :
    (∀ c, find_fitid_col ((open_database s).txn_cols.getD []) = some c →
      c.declType.toUpper = "INTEGER" ∧ c.pk = true) ∧
    (∀ cs c, s.txn_cols = some cs → find_fitid_col cs = some c →
      c.declType.toUpper = "INTEGER" → c.pk = true →
      s.cat_table = true → s.rules_table = true →
      open_database s = s) := by
  constructor
  · intro c hc
    cases hcols : s.txn_cols with
    | none =>
      have hopen : open_database s = migrate_to_auto_fitid
          { txn_cols := some new_txn_cols, txn_indexes := ["content_lookup"],
            txn_row_count := 0, cat_table := true, rules_table := true } := by
        unfold open_database create_txn_table_if_missing
          create_category_table_if_missing create_rules_table_if_missing
        rw [hcols]
      have hmig := migrate_of_good_fitid
        { txn_cols := some new_txn_cols, txn_indexes := ["content_lookup"],
          txn_row_count := 0, cat_table := true, rules_table := true }
        ⟨"fitid", "INTEGER", true⟩ find_fitid_new_txn_cols new_fitid_cond
      rw [hopen, hmig] at hc
      simp only [Option.getD_some] at hc
      rw [find_fitid_new_txn_cols] at hc
      injection hc with h
      rw [← h]
      exact ⟨by with_unfolding_all decide, rfl⟩
    | some cs =>
      have htxn : create_txn_table_if_missing s = s := by
        unfold create_txn_table_if_missing
        rw [hcols]
      have hopen : open_database s = migrate_to_auto_fitid
          { s with cat_table := true, rules_table := true } := by
        unfold open_database create_category_table_if_missing
          create_rules_table_if_missing
        rw [htxn]
      have hcols2 :
          ({ s with cat_table := true, rules_table := true } : SchemaDB).txn_cols =
            some cs := hcols
      cases hfind : find_fitid_col cs with
      | none =>
        have hmig := migrate_of_no_fitid
          { s with cat_table := true, rules_table := true }
          (by rw [hcols2]; simpa using hfind)
        rw [hopen, hmig] at hc
        rw [hcols2] at hc
        simp only [Option.getD_some] at hc
        rw [hfind] at hc
        exact Option.noConfusion hc
      | some c0 =>
        have hfindt : find_fitid_col
            (({ s with cat_table := true, rules_table := true } : SchemaDB).txn_cols.getD []) =
              some c0 := by
          rw [hcols2]
          simpa using hfind
        cases hcond : (c0.declType.toUpper != "INTEGER" || !c0.pk) with
        | true =>
          have hmig := migrate_of_bad_fitid _ c0 hfindt hcond
          rw [hopen, hmig] at hc
          simp only [Option.getD_some] at hc
          rw [find_fitid_new_txn_cols] at hc
          injection hc with h
          rw [← h]
          exact ⟨by with_unfolding_all decide, rfl⟩
        | false =>
          have hmig := migrate_of_good_fitid _ c0 hfindt hcond
          rw [hopen, hmig] at hc
          rw [hcols2] at hc
          simp only [Option.getD_some] at hc
          rw [hfind] at hc
          injection hc with h
          rw [← h]
          exact (good_cond_iff c0).mp hcond
  · intro cs c hcols hfind hint hpk hcat hrules
    have htxn : create_txn_table_if_missing s = s := by
      unfold create_txn_table_if_missing
      rw [hcols]
    have hcat2 : create_category_table_if_missing s = s := by
      unfold create_category_table_if_missing
      cases s
      simp_all
    have hrules2 : create_rules_table_if_missing s = s := by
      unfold create_rules_table_if_missing
      cases s
      simp_all
    have hfind2 : find_fitid_col (s.txn_cols.getD []) = some c := by
      rw [hcols]
      simpa using hfind
    have hmig : migrate_to_auto_fitid s = s :=
      migrate_of_good_fitid s c hfind2 ((good_cond_iff c).mpr ⟨hint, hpk⟩)
    unfold open_database
    rw [htxn, hcat2, hrules2, hmig]


/-- Witness for `open_database_only_auto_fitid` at the concrete legacy
store `s_c3` (the second part's hypotheses discharged there). -/
theorem open_database_only_auto_fitid_wit :
    open_database s_c3 = s_c3 := by
  exact (open_database_only_auto_fitid s_c3).2 new_txn_cols
    ⟨"fitid", "INTEGER", true⟩ rfl (by with_unfolding_all decide)
    (by with_unfolding_all decide) rfl rfl rfl

/-- Claim C9: the auto-id migration is idempotent -- run twice in a row
the second run changes nothing (identical schema state and row count);
it never changes the row count; on a table already holding an auto-id
integer primary key it is a no-op; and on a table with no `fitid` column
(brand-new or absent table) it is also a no-op. -/
theorem migrate_to_auto_fitid_idem (s : SchemaDB) :
    migrate_to_auto_fitid (migrate_to_auto_fitid s) = migrate_to_auto_fitid s ∧
    (migrate_to_auto_fitid s).txn_row_count = s.txn_row_count ∧
    (∀ c, find_fitid_col (s.txn_cols.getD []) = some c →
      c.declType.toUpper = "INTEGER" → c.pk = true →
      migrate_to_auto_fitid s = s) ∧
    (find_fitid_col (s.txn_cols.getD []) = none →
      migrate_to_auto_fitid s = s) := by
  refine ⟨?_, ?_, ?_, ?_⟩
  · cases hfind : find_fitid_col (s.txn_cols.getD []) with
    | none =>
      have hs := migrate_of_no_fitid s hfind
      rw [hs, hs]
    | some c =>
      cases hcond : (c.declType.toUpper != "INTEGER" || !c.pk) with
      | true =>
        have hs := migrate_of_bad_fitid s c hfind hcond
        rw [hs]
        exact migrate_of_good_fitid _ ⟨"fitid", "INTEGER", true⟩
          find_fitid_new_txn_cols new_fitid_cond
      | false =>
        have hs := migrate_of_good_fitid s c hfind hcond
        rw [hs, hs]
  · cases hfind : find_fitid_col (s.txn_cols.getD []) with
    | none => rw [migrate_of_no_fitid s hfind]
    | some c =>
      cases hcond : (c.declType.toUpper != "INTEGER" || !c.pk) with
      | true => rw [migrate_of_bad_fitid s c hfind hcond]
      | false => rw [migrate_of_good_fitid s c hfind hcond]
  · intro c hfind hint hpk
    exact migrate_of_good_fitid s c hfind ((good_cond_iff c).mpr ⟨hint, hpk⟩)
  · intro hfind
    exact migrate_of_no_fitid s hfind


/-- A legacy store whose `fitid` column is a bank-supplied text id: the
auto-id migration applies to it. -/
def s_c9 : SchemaDB :=
  { txn_cols := some text_fitid_cols
    txn_indexes := ["acct_fitid_posted"]
    txn_row_count := 7
    cat_table := true
    rules_table := true }

/-- Witness for `migrate_to_auto_fitid_idem` at the concrete legacy store
`s_c9` and at a brand-new (absent) table. -/
theorem migrate_to_auto_fitid_idem_wit :
    (migrate_to_auto_fitid (migrate_to_auto_fitid s_c9) =
      migrate_to_auto_fitid s_c9 ∧
     (migrate_to_auto_fitid s_c9).txn_row_count = s_c9.txn_row_count) ∧
    migrate_to_auto_fitid ⟨none, [], 0, false, false⟩ =
      ⟨none, [], 0, false, false⟩ := by
  constructor
  · exact ⟨(migrate_to_auto_fitid_idem s_c9).1, (migrate_to_auto_fitid_idem s_c9).2.1⟩
  · exact (migrate_to_auto_fitid_idem ⟨none, [], 0, false, false⟩).2.2.2
      (by with_unfolding_all decide)

end Budgy
